import Mathlib

/-!
Shallow embedding of the frontlink client core: the connection manager and
room registry of `src/provider.tsx`, the wire message model of
`src/messages.ts`, and the event-name module `src/events.ts`.

Conventions of the embedding:
* JavaScript `undefined` for an optional field is `Option.none`; in
  particular `MessageID` is `Option String` because inbound JSON may lack
  the field and the handlers read it with a non-null assertion.
* The `Set` used for deduplication is a list with insert-if-absent, and
  the `Map` of connected rooms is an association list in insertion order
  (JavaScript `Map`/`Set` iterate in insertion order).
* `import * as EventType from "./events"` member access is modelled by
  `eventRef`: looking up an export name in the list of names actually
  exported by `events.ts`; a name that is not exported yields `none`
  (the runtime value `undefined`).
* Handlers are pure state transformers returning an `Effects` record that
  logs transport sends, public-bus emissions, internal-bus emissions,
  dedupe-set insertions, scheduled reconnects and console error/warn calls.
* Fresh `randomID()` results are passed as explicit arguments (or an
  explicit supply `Nat → String` where a handler draws several).
-/

namespace Frontlink

/-- Room kinds, from `export type RoomKind = "State" | "Function"`. -/
inductive RoomKind where
  | State
  | Function
deriving DecidableEq

/-- The wire message tags of the current `messages.ts`. -/
inductive MessageType where
  | StateUpdate
  | CallFunction
  | SubscribeState
  | SubscribeFunction
  | UnsubscribeState
  | UnsubscribeFunction
  | RoommateSubscribed
  | RoommateUnsubscribed
deriving DecidableEq

/-- The wire envelope (client-side view; `MessageMS` is server-assigned and
never read by the provider, so it is omitted).  `MessageID` is optional
because a runtime object may lack the field. Payloads are kept opaque as
their serialized forms. -/
structure Message where
  MessageID : Option String
  MessageType : MessageType
  RoomID : String
  Value : Option String := none
  Args : Option (List String) := none
  ClientID : Option String := none
deriving DecidableEq

/-- The list of names exported by the current `events.ts`.  Each exported
constant equals its own name, e.g. `export const MessageEmitted =
"MessageEmitted"`.  Note that `SocketOpened` is NOT among them. -/
def eventsModuleExports : List String :=
  ["MessageEmitted", "MessageReceived", "DeserializationError",
   "SocketClosed", "SocketError", "RoomCollisionPrevented",
   "RoomSubscribed", "RoomUnsubscribed", "RoommateSubscribed",
   "RoommateUnsubscribed", "DuplicateMessageReceived"]

/-- `EventType.n` for `import * as EventType from "./events"`: the value of
export `n`, or `none` (undefined) when `events.ts` has no such export. -/
def eventRef (n : String) : Option String :=
  if n ∈ eventsModuleExports then some n else none

/-- Payload shapes passed to `Emitter.emit`. -/
inductive Payload where
  | ofEvent
  | ofMsg (msg : Message)
  | ofRoom (roomID : String)
  | ofRoommate (roomID : String) (clientID : Option String)
deriving DecidableEq

/-- A public-bus emission: `Emitter.emit(name, payload)`.  The name is an
`Option String` because the emitted event-name expression may be the
undefined value. -/
structure BusEvent where
  name : Option String
  payload : Payload
deriving DecidableEq

/-- Data routed on the internal emitter. -/
inductive InternalData where
  | value (v : Option String)
  | args (a : Option (List String))
deriving DecidableEq

/-- An internal-bus emission: `internalEmitter.emit(topic, data)`. -/
structure InternalEmit where
  topic : String
  data : InternalData
deriving DecidableEq

/-- Observable effects of one handler invocation. -/
structure Effects where
  sends : List Message := []
  bus : List BusEvent := []
  internal : List InternalEmit := []
  dedupeAdds : List (Option String) := []
  buffered : List Message := []
  reconnects : Nat := 0
  errorLogs : Nat := 0
  warnLogs : Nat := 0
deriving DecidableEq

/-- Sequential composition of effects. -/
def Effects.append (a b : Effects) : Effects :=
  { sends := a.sends ++ b.sends
    bus := a.bus ++ b.bus
    internal := a.internal ++ b.internal
    dedupeAdds := a.dedupeAdds ++ b.dedupeAdds
    buffered := a.buffered ++ b.buffered
    reconnects := a.reconnects + b.reconnects
    errorLogs := a.errorLogs + b.errorLogs
    warnLogs := a.warnLogs + b.warnLogs }

/-- WebSocket readyState. -/
inductive ConnState where
  | Connecting
  | Open
  | Closing
  | Closed
deriving DecidableEq

/-- The provider's mutable refs: `connectedRooms` (room registry, a `Map`
in insertion order) and `msgDedupe` (the dedupe `Set`). -/
structure ProviderState where
  connectedRooms : List (String × RoomKind) := []
  msgDedupe : List (Option String) := []
deriving DecidableEq

/-- The state of a freshly mounted provider: both refs start empty. -/
def initialState : ProviderState := {}

/-- `Set.add`: insert if absent (JS sets never hold duplicates). -/
def insertDedupe (id : Option String) (s : List (Option String)) :
    List (Option String) :=
  if id ∈ s then s else s ++ [id]

/-- `Map.has` on the room registry. -/
def hasRoom (rooms : List (String × RoomKind)) (roomID : String) : Bool :=
  rooms.any (fun p => p.1 == roomID)

/-- `Map.delete` on the room registry. -/
def removeRoom (rooms : List (String × RoomKind)) (roomID : String) :
    List (String × RoomKind) :=
  rooms.filter (fun p => p.1 ≠ roomID)

/-- `"StateUpdate::" + stateName`, the internal topic for state rooms. -/
def stateUpdateInternalEmitterID (stateName : String) : String :=
  "StateUpdate::" ++ stateName

/-- `"CallFunction::" + stateName`, the internal topic for function rooms. -/
def callFunctionInternalEmitterID (stateName : String) : String :=
  "CallFunction::" ++ stateName

/-- `emitMessage` (provider.tsx): record the message id in the dedupe set;
if the socket is open, send and emit `MessageEmitted`; otherwise the
message enters the buffering loop (modelled separately by `bufferRun`). -/
def emitMessage (ready : ConnState) (st : ProviderState) (msg : Message) :
    ProviderState × Effects :=
  let st' := { st with msgDedupe := insertDedupe msg.MessageID st.msgDedupe }
  if ready = ConnState.Open then
    (st', { sends := [msg]
            bus := [{ name := eventRef "MessageEmitted"
                      payload := Payload.ofMsg msg }]
            dedupeAdds := [msg.MessageID] })
  else
    (st', { dedupeAdds := [msg.MessageID], buffered := [msg] })

/-- The subscribe control message built in `subscribeToRoom` (carrying the
initial value) and in the `onopen` resubscribe sweep (carrying none). -/
def subscribeMsgFor (roomID : String) (kind : RoomKind)
    (value : Option String) (fresh : String) : Message :=
  { MessageID := some fresh
    MessageType := match kind with
      | RoomKind.State => MessageType.SubscribeState
      | RoomKind.Function => MessageType.SubscribeFunction
    RoomID := roomID
    Value := value }

/-- The unsubscribe control message built in `unsubFromRoom`. -/
def unsubscribeMsgFor (roomID : String) (kind : RoomKind) (fresh : String) :
    Message :=
  { MessageID := some fresh
    MessageType := match kind with
      | RoomKind.State => MessageType.UnsubscribeState
      | RoomKind.Function => MessageType.UnsubscribeFunction
    RoomID := roomID }

/-- The `StateUpdate` message built by `emitSetState`. -/
def stateUpdateMsgFor (roomID : String) (v : Option String)
    (fresh : String) : Message :=
  { MessageID := some fresh
    MessageType := MessageType.StateUpdate
    RoomID := roomID
    Value := v }

/-- The `CallFunction` message built by `emitCallFunction`. -/
def callFunctionMsgFor (roomID : String) (args : Option (List String))
    (fresh : String) : Message :=
  { MessageID := some fresh
    MessageType := MessageType.CallFunction
    RoomID := roomID
    Args := args }

/-- `emitSetState`: construct a `StateUpdate` with a fresh random id and
hand it to `emitMessage`. -/
def emitSetState (ready : ConnState) (st : ProviderState) (roomID : String)
    (v : Option String) (fresh : String) : ProviderState × Effects :=
  emitMessage ready st (stateUpdateMsgFor roomID v fresh)

/-- `emitCallFunction`: construct a `CallFunction` with a fresh random id
and hand it to `emitMessage`. -/
def emitCallFunction (ready : ConnState) (st : ProviderState)
    (roomID : String) (args : Option (List String)) (fresh : String) :
    ProviderState × Effects :=
  emitMessage ready st (callFunctionMsgFor roomID args fresh)

/-- `subscribeToRoom` (provider.tsx): reject with `RoomCollisionPrevented`
if the room is already registered; otherwise insert the entry, emit the
kind-tagged subscribe message when the socket is open, and emit
`RoomSubscribed`. -/
def subscribeToRoom (ready : ConnState) (st : ProviderState)
    (roomID : String) (kind : RoomKind) (initialValue : Option String)
    (fresh : String) : ProviderState × Effects :=
  if hasRoom st.connectedRooms roomID then
    (st, { bus := [{ name := eventRef "RoomCollisionPrevented"
                     payload := Payload.ofRoom roomID }]
           errorLogs := 1 })
  else
    let st1 := { st with connectedRooms := st.connectedRooms ++ [(roomID, kind)] }
    let r :=
      if ready = ConnState.Open then
        emitMessage ready st1 (subscribeMsgFor roomID kind initialValue fresh)
      else (st1, {})
    (r.1, Effects.append r.2
      { bus := [{ name := eventRef "RoomSubscribed"
                  payload := Payload.ofRoom roomID }] })

/-- `unsubFromRoom` (provider.tsx): if the room is unknown, log an error
and stop; otherwise delete the entry, emit the kind-tagged unsubscribe
message when the socket is open, and emit `RoomUnsubscribed`. -/
def unsubFromRoom (ready : ConnState) (st : ProviderState) (roomID : String)
    (kind : RoomKind) (fresh : String) : ProviderState × Effects :=
  if hasRoom st.connectedRooms roomID then
    let st1 := { st with connectedRooms := removeRoom st.connectedRooms roomID }
    let r :=
      if ready = ConnState.Open then
        emitMessage ready st1 (unsubscribeMsgFor roomID kind fresh)
      else (st1, {})
    (r.1, Effects.append r.2
      { bus := [{ name := eventRef "RoomUnsubscribed"
                  payload := Payload.ofRoom roomID }] })
  else
    (st, { errorLogs := 1 })

/-- The resubscribe sweep of the `onopen` handler: `forEach` over the room
registry, emitting one kind-tagged subscribe message (with no value) per
entry, each with its own fresh random id drawn from the supply `ids`. -/
def resubscribeAll (ids : Nat → String) (k : Nat) (st : ProviderState) :
    List (String × RoomKind) → ProviderState × Effects
  | [] => (st, {})
  | p :: rest =>
    let r1 := emitMessage ConnState.Open st (subscribeMsgFor p.1 p.2 none (ids k))
    let r2 := resubscribeAll ids (k + 1) r1.1 rest
    (r2.1, Effects.append r1.2 r2.2)

/-- The `onopen` handler: resubscribe every registered room, then publish
the socket-opened notification under `EventType.SocketOpened` — a name
`events.ts` does not export, so the emission name is `undefined`. -/
def onOpen (st : ProviderState) (ids : Nat → String) :
    ProviderState × Effects :=
  let r := resubscribeAll ids 0 st st.connectedRooms
  (r.1, Effects.append r.2
    { bus := [{ name := eventRef "SocketOpened", payload := Payload.ofEvent }] })

/-- Result of `JSON.parse` on an inbound frame: decode failure or a
decoded envelope. -/
inductive Decoded where
  | fail
  | ok (msg : Message)

/-- The internal-bus dispatch of the `onmessage` switch. -/
def dispatchInternal (msg : Message) : List InternalEmit :=
  match msg.MessageType with
  | MessageType.StateUpdate =>
      [{ topic := stateUpdateInternalEmitterID msg.RoomID
         data := InternalData.value msg.Value }]
  | MessageType.CallFunction =>
      [{ topic := callFunctionInternalEmitterID msg.RoomID
         data := InternalData.args msg.Args }]
  | _ => []

/-- The public-bus dispatch of the `onmessage` switch (presence events). -/
def dispatchBus (msg : Message) : List BusEvent :=
  match msg.MessageType with
  | MessageType.RoommateSubscribed =>
      [{ name := eventRef "RoommateSubscribed"
         payload := Payload.ofRoommate msg.RoomID msg.ClientID }]
  | MessageType.RoommateUnsubscribed =>
      [{ name := eventRef "RoommateUnsubscribed"
         payload := Payload.ofRoommate msg.RoomID msg.ClientID }]
  | _ => []

/-- The `onmessage` handler: on decode failure log and emit
`DeserializationError`; on a duplicate `MessageID` warn and emit
`DuplicateMessageReceived`; otherwise emit `MessageReceived` and dispatch
by `MessageType`.  No branch mutates the refs. -/
def onMessage (st : ProviderState) (d : Decoded) : ProviderState × Effects :=
  match d with
  | Decoded.fail =>
      (st, { bus := [{ name := eventRef "DeserializationError"
                       payload := Payload.ofEvent }]
             errorLogs := 1 })
  | Decoded.ok msg =>
      if msg.MessageID ∈ st.msgDedupe then
        (st, { bus := [{ name := eventRef "DuplicateMessageReceived"
                         payload := Payload.ofMsg msg }]
               warnLogs := 1 })
      else
        (st, { bus := { name := eventRef "MessageReceived"
                        payload := Payload.ofMsg msg } :: dispatchBus msg
               internal := dispatchInternal msg })

/-- The `onclose` handler: emit `SocketClosed` and schedule a reconnect. -/
def onClose (st : ProviderState) : ProviderState × Effects :=
  (st, { bus := [{ name := eventRef "SocketClosed", payload := Payload.ofEvent }]
         reconnects := 1 })

/-- The dedupe-truncation timer body: `msgDedupe.current = new Set()`. -/
def truncateDedupe (st : ProviderState) : ProviderState :=
  { st with msgDedupe := [] }

/-- `props.maxBufferMS ?? 10_000`. -/
def effectiveMaxBufferMS (propsMaxBufferMS : Option Nat) : Nat :=
  propsMaxBufferMS.getD 10000

/-- Outcome of the per-message buffering loop. -/
inductive BufferOutcome where
  | sent
  | dropped
  | fuelOut
deriving DecidableEq

/-- Observables of one buffering loop run. -/
structure BufferRun where
  outcome : BufferOutcome
  sends : List Message := []
  bus : List BusEvent := []
  errorLogs : Nat := 0
deriving DecidableEq

/-- One run of the `setInterval` buffering loop of `emitMessage`, with the
interval tick `k` firing at `started + 300 * (k + 1)` ms.  Each tick first
checks `now > started + maxBufferMS` (drop with one console error), then
whether the socket has opened (send and emit `MessageEmitted`).  `openAt k`
tells whether the socket is open at tick `k`.  Structural fuel bounds the
recursion; `bufferRun` supplies enough fuel to reach the drop tick. -/
def bufferLoopAux (openAt : Nat → Bool) (maxBufferMS : Nat) (msg : Message) :
    Nat → Nat → BufferRun
  | _, 0 => { outcome := BufferOutcome.fuelOut }
  | tick, fuel + 1 =>
    if 300 * (tick + 1) > maxBufferMS then
      { outcome := BufferOutcome.dropped, errorLogs := 1 }
    else if openAt tick then
      { outcome := BufferOutcome.sent
        sends := [msg]
        bus := [{ name := eventRef "MessageEmitted"
                  payload := Payload.ofMsg msg }] }
    else
      bufferLoopAux openAt maxBufferMS msg (tick + 1) fuel

/-- The buffering loop started when `emitMessage` finds the socket not
open, run to completion. -/
def bufferRun (openAt : Nat → Bool) (maxBufferMS : Nat) (msg : Message) :
    BufferRun :=
  bufferLoopAux openAt maxBufferMS msg 0 (maxBufferMS / 300 + 1)

/-- Processing a sequence of `emitMessage` calls in call order. -/
def runEmits (ready : ConnState) (st : ProviderState) :
    List Message → ProviderState × Effects
  | [] => (st, {})
  | m :: ms =>
    let r1 := emitMessage ready st m
    let r2 := runEmits ready r1.1 ms
    (r2.1, Effects.append r1.2 r2.2)

/-- The operations that touch the provider's refs. -/
inductive Op where
  | emitOp (ready : ConnState) (msg : Message)
  | inboundOp (d : Decoded)
  | truncateOp
  | subscribeOp (ready : ConnState) (roomID : String) (kind : RoomKind)
      (iv : Option String) (fresh : String)
  | unsubOp (ready : ConnState) (roomID : String) (kind : RoomKind)
      (fresh : String)
  | reopenOp (ids : Nat → String)

/-- Apply one operation. -/
def applyOp (st : ProviderState) : Op → ProviderState × Effects
  | Op.emitOp ready msg => emitMessage ready st msg
  | Op.inboundOp d => onMessage st d
  | Op.truncateOp => (truncateDedupe st, {})
  | Op.subscribeOp ready roomID kind iv fresh =>
      subscribeToRoom ready st roomID kind iv fresh
  | Op.unsubOp ready roomID kind fresh =>
      unsubFromRoom ready st roomID kind fresh
  | Op.reopenOp ids => onOpen st ids

/-- Run a sequence of operations from a state. -/
def runOps (st : ProviderState) : List Op → ProviderState
  | [] => st
  | op :: ops => runOps (applyOp st op).1 ops

/-- The ids inserted into the dedupe set (i.e. the `MessageID`s of the
messages this client handed to `emitMessage`) since the last truncation,
accumulated along a run. -/
def emittedTrace (st : ProviderState) (acc : List (Option String)) :
    List Op → List (Option String)
  | [] => acc
  | op :: ops =>
    let r := applyOp st op
    let acc' := match op with
      | Op.truncateOp => []
      | _ => acc ++ r.2.dedupeAdds
    emittedTrace r.1 acc' ops

/-- Count of public-bus emissions under a given event name. -/
def countBusName (eff : Effects) (n : Option String) : Nat :=
  (eff.bus.filter (fun e => e.name = n)).length

/-- The registry keys are pairwise distinct (a JS `Map` cannot hold two
entries with the same key). -/
def nodupKeys (rooms : List (String × RoomKind)) : Prop :=
  (rooms.map Prod.fst).Nodup

/-- Transport sends restricted to one room. -/
def sendsForRoom (eff : Effects) (roomID : String) : List Message :=
  eff.sends.filter (fun m => m.RoomID = roomID)

/-- A sample emitted message, carrying a `MessageID`. -/
def sampleMsg : Message :=
  { MessageID := some "m0"
    MessageType := MessageType.StateUpdate
    RoomID := "r"
    Value := some "1" }

/-- A runtime message object lacking a `MessageID` (the field is
`undefined`). -/
def cMsgNoID : Message :=
  { MessageID := none
    MessageType := MessageType.StateUpdate
    RoomID := "r"
    Value := some "v" }

/-- A decoded inbound message whose id has not been seen before. -/
def freshInbound : Message :=
  { MessageID := some "m1"
    MessageType := MessageType.StateUpdate
    RoomID := "room"
    Value := some "7" }

/- Helper lemmas. -/

theorem eventRef_MessageEmitted :
    eventRef "MessageEmitted" = some "MessageEmitted" := by decide

theorem eventRef_MessageReceived :
    eventRef "MessageReceived" = some "MessageReceived" := by decide

theorem eventRef_DuplicateMessageReceived :
    eventRef "DuplicateMessageReceived" = some "DuplicateMessageReceived" := by
  decide

theorem eventRef_DeserializationError :
    eventRef "DeserializationError" = some "DeserializationError" := by decide

theorem eventRef_RoomCollisionPrevented :
    eventRef "RoomCollisionPrevented" = some "RoomCollisionPrevented" := by
  decide

theorem eventRef_RoomSubscribed :
    eventRef "RoomSubscribed" = some "RoomSubscribed" := by decide

theorem eventRef_RoomUnsubscribed :
    eventRef "RoomUnsubscribed" = some "RoomUnsubscribed" := by decide

theorem mem_insertDedupe (x id : Option String) (s : List (Option String)) :
    x ∈ insertDedupe id s ↔ x ∈ s ∨ x = id := by
  unfold insertDedupe
  split
  · constructor
    · exact fun h => Or.inl h
    · rintro (h | rfl)
      · exact h
      · assumption
  · simp

theorem emitMessage_rooms (ready : ConnState) (st : ProviderState)
    (m : Message) :
    (emitMessage ready st m).1.connectedRooms = st.connectedRooms := by
  unfold emitMessage
  split <;> rfl

theorem emitMessage_dedupe (ready : ConnState) (st : ProviderState)
    (m : Message) :
    (emitMessage ready st m).1.msgDedupe =
      insertDedupe m.MessageID st.msgDedupe ∧
    (emitMessage ready st m).2.dedupeAdds = [m.MessageID] := by
  unfold emitMessage
  split <;> exact ⟨rfl, rfl⟩

theorem emitMessage_open_effects (st : ProviderState) (m : Message) :
    (emitMessage ConnState.Open st m).2 =
      { sends := [m]
        bus := [{ name := some "MessageEmitted", payload := Payload.ofMsg m }]
        dedupeAdds := [m.MessageID] } := by
  simp [emitMessage, eventRef_MessageEmitted]

theorem runEmits_open_sends (ms : List Message) (st : ProviderState) :
    (runEmits ConnState.Open st ms).2.sends = ms := by
  induction ms generalizing st with
  | nil => rfl
  | cons m ms ih =>
    simp [runEmits, Effects.append, emitMessage_open_effects, ih]

/-- C9: For every pair of emit calls made while the connection is Open, the
two transport sends occur in the same order as the calls. -/
theorem open_emits_in_call_order (st : ProviderState) (m1 m2 : Message) :
    (runEmits ConnState.Open st [m1, m2]).2.sends = [m1, m2] :=
  runEmits_open_sends [m1, m2] st

/-- C7: For every inbound frame that fails to decode, exactly one
`DeserializationError` event fires and the message is dropped with no
further processing: no room listener is invoked, no reconnect is
triggered, the handler returns normally, and the dedupe set and room
registry are unchanged (the state and all other effect channels are
exactly those of the no-op). -/
theorem decode_failure_drops_with_one_event (st : ProviderState) :
    onMessage st Decoded.fail =
      (st, { bus := [{ name := some "DeserializationError"
                       payload := Payload.ofEvent }]
             errorLogs := 1 }) ∧
    countBusName (onMessage st Decoded.fail).2
      (some "DeserializationError") = 1 ∧
    (onMessage st Decoded.fail).2.internal = [] ∧
    (onMessage st Decoded.fail).2.reconnects = 0 := by
  refine ⟨?_, ?_, rfl, rfl⟩
  · simp [onMessage, eventRef_DeserializationError]
  · simp [onMessage, countBusName, eventRef_DeserializationError]

/-- C8: For every roomID not present in the registry,
`unsubFromRoom(roomID, kind)` logs a developer-facing error, leaves the
registry unchanged, emits no unsubscribe wire message, fires no
`RoomUnsubscribed` event, and returns normally: the call is exactly the
no-op plus one console error. -/
theorem unsub_unknown_room_noop (ready : ConnState) (st : ProviderState)
    (roomID : String) (kind : RoomKind) (fresh : String)
    (h : hasRoom st.connectedRooms roomID = false) :
    unsubFromRoom ready st roomID kind fresh = (st, { errorLogs := 1 }) ∧
    countBusName (unsubFromRoom ready st roomID kind fresh).2
      (some "RoomUnsubscribed") = 0 ∧
    (unsubFromRoom ready st roomID kind fresh).2.sends = [] := by
  refine ⟨?_, ?_, ?_⟩ <;> simp [unsubFromRoom, h, countBusName]

theorem unsub_unknown_room_noop_witness :
    hasRoom initialState.connectedRooms "A" = false ∧
    unsubFromRoom ConnState.Open initialState "A" RoomKind.State "f" =
      (initialState, { errorLogs := 1 }) :=
  ⟨rfl, (unsub_unknown_room_noop ConnState.Open initialState "A"
    RoomKind.State "f" rfl).1⟩

/-- C4 counterexample: `emitMessage` never assigns a `MessageID`.  A
message lacking one (the field is `undefined`) is recorded and sent still
lacking one — the dedupe set receives the undefined value and the sent
message's `MessageID` is still absent, so no fresh unique id was
assigned. -/
theorem emit_assigns_no_id_cex :
    (emitMessage ConnState.Open initialState cMsgNoID).2.sends = [cMsgNoID] ∧
    cMsgNoID.MessageID = none ∧
    (emitMessage ConnState.Open initialState cMsgNoID).1.msgDedupe = [none] := by
  refine ⟨?_, rfl, rfl⟩
  simp [emitMessage_open_effects]

/-- C4 (amended): For every message passed to emit: its `MessageID` is
recorded as given in the local dedupe set, the registry is untouched, and
if the connection state is Open the message is sent to the transport
unchanged immediately and exactly one `MessageEmitted` event fires.  Emit
itself assigns no `MessageID`; the construction sites (`emitSetState`,
`emitCallFunction`) attach the fresh random id before calling emit. -/
theorem emit_records_and_sends (ready : ConnState) (st : ProviderState)
    (msg : Message) (roomID : String) (v : Option String)
    (args : Option (List String)) (fresh : String) :
    (emitMessage ready st msg).1.msgDedupe =
      insertDedupe msg.MessageID st.msgDedupe ∧
    (emitMessage ready st msg).1.connectedRooms = st.connectedRooms ∧
    (ready = ConnState.Open →
      (emitMessage ready st msg).2.sends = [msg] ∧
      countBusName (emitMessage ready st msg).2 (some "MessageEmitted") = 1) ∧
    (stateUpdateMsgFor roomID v fresh).MessageID = some fresh ∧
    (callFunctionMsgFor roomID args fresh).MessageID = some fresh := by
  refine ⟨(emitMessage_dedupe ready st msg).1, emitMessage_rooms ready st msg,
    ?_, rfl, rfl⟩
  rintro rfl
  simp [emitMessage_open_effects, countBusName]

theorem emit_records_and_sends_witness :
    ConnState.Open = ConnState.Open ∧
    ((emitMessage ConnState.Open initialState sampleMsg).2.sends =
        [sampleMsg] ∧
      countBusName (emitMessage ConnState.Open initialState sampleMsg).2
        (some "MessageEmitted") = 1) :=
  ⟨rfl, (emit_records_and_sends ConnState.Open initialState sampleMsg
    "r" none none "f").2.2.1 rfl⟩

/-- C5 counterexample: in the never-opening run with `maxBufferMS = 100`,
the run drops the message with exactly one console error and publishes NO
event at all on the public event bus — the error is not reported as an
error event, only as an error log. -/
theorem buffer_timeout_no_bus_event_cex :
    bufferRun (fun _ => false) 100 sampleMsg =
      { outcome := BufferOutcome.dropped, errorLogs := 1 } ∧
    (bufferRun (fun _ => false) 100 sampleMsg).bus = [] ∧
    (bufferRun (fun _ => false) 100 sampleMsg).sends = [] := by
  refine ⟨rfl, rfl, rfl⟩

theorem bufferLoopAux_never_open (openAt : Nat → Bool) (M : Nat)
    (msg : Message) (hopen : ∀ k, openAt k = false) :
    ∀ (fuel tick : Nat), (∃ j, j < fuel ∧ 300 * (tick + j + 1) > M) →
      bufferLoopAux openAt M msg tick fuel =
        { outcome := BufferOutcome.dropped, errorLogs := 1 } := by
  intro fuel
  induction fuel with
  | zero =>
    intro tick h
    obtain ⟨j, hj, _⟩ := h
    exact absurd hj (Nat.not_lt_zero j)
  | succ fuel ih =>
    intro tick h
    by_cases hdrop : 300 * (tick + 1) > M
    · simp [bufferLoopAux, hdrop]
    · obtain ⟨j, hj, hgt⟩ := h
      have hj0 : j ≠ 0 := by
        rintro rfl
        omega
      obtain ⟨j', rfl⟩ := Nat.exists_eq_succ_of_ne_zero hj0
      have hrec : ∃ j, j < fuel ∧ 300 * (tick + 1 + j + 1) > M :=
        ⟨j', by omega, by omega⟩
      simp [bufferLoopAux, hdrop, hopen tick]
      exact ih (tick + 1) hrec

/-- C5 (amended): For every message emitted while the connection is not
Open, if the connection never reaches Open within the configured maximum
buffering duration (default 10000ms), the message is never sent to the
transport, it is permanently dropped with no further retry (the loop
terminates in the dropped outcome), and an error is reported exactly once
— via the console error log; no event fires on the public event bus. -/
theorem buffer_timeout_drops_and_logs_once (openAt : Nat → Bool) (M : Nat)
    (msg : Message) :
    ((∀ k, openAt k = false) →
      bufferRun openAt M msg =
        { outcome := BufferOutcome.dropped, errorLogs := 1 }) ∧
    effectiveMaxBufferMS none = 10000 := by
  refine ⟨?_, rfl⟩
  intro hopen
  have hfuel : ∃ j, j < M / 300 + 1 ∧ 300 * (0 + j + 1) > M := by
    refine ⟨M / 300, by omega, by omega⟩
  exact bufferLoopAux_never_open openAt M msg hopen (M / 300 + 1) 0 hfuel

theorem buffer_timeout_drops_and_logs_once_witness :
    (∀ k : Nat, (fun _ : Nat => false) k = false) ∧
    bufferRun (fun _ => false) (effectiveMaxBufferMS none) sampleMsg =
      { outcome := BufferOutcome.dropped, errorLogs := 1 } :=
  ⟨fun _ => rfl,
    (buffer_timeout_drops_and_logs_once (fun _ => false)
      (effectiveMaxBufferMS none) sampleMsg).1 (fun _ => rfl)⟩

/-- C6: the `onopen` handler does publish a socket-opened notification on
the public bus, but under the event name `undefined`, because `events.ts`
does not export `SocketOpened` even though the provider reads
`EventType.SocketOpened` and the README documents listening on
`Events.SocketOpened`.  The emission's name is `none`, not
`some "SocketOpened"`. -/
theorem socket_opened_event_name_undefined :
    eventRef "SocketOpened" = none ∧
    "SocketOpened" ∉ eventsModuleExports ∧
    (onOpen initialState (fun _ => "id0")).2.bus =
      [{ name := none, payload := Payload.ofEvent }] ∧
    (onOpen initialState (fun _ => "id0")).2.bus.filter
      (fun e => e.name = some "SocketOpened") = [] := by
  refine ⟨by decide, by decide, rfl, rfl⟩

theorem eventRef_RoommateSubscribed :
    eventRef "RoommateSubscribed" = some "RoommateSubscribed" := by decide

theorem eventRef_RoommateUnsubscribed :
    eventRef "RoommateUnsubscribed" = some "RoommateUnsubscribed" := by decide

theorem dispatchBus_no_MessageReceived (msg : Message) :
    (dispatchBus msg).filter (fun e => e.name = some "MessageReceived") = []
      ∧
    (dispatchBus msg).filter
      (fun e => e.name = some "DuplicateMessageReceived") = [] := by
  cases h : msg.MessageType <;>
    simp [dispatchBus, h, eventRef_RoommateSubscribed,
      eventRef_RoommateUnsubscribed]

/-- C1 counterexample: a fresh successfully decoded inbound message fires
`MessageReceived`, yet its `MessageID` is NOT inserted into the dedupe
set: starting from the empty dedupe set, after handling `freshInbound`
(id `"m1"`) the dedupe set is still empty — the message was not "marked
seen". -/
theorem inbound_fresh_message_not_marked_seen_cex :
    freshInbound.MessageID = some "m1" ∧
    (onMessage initialState (Decoded.ok freshInbound)).1.msgDedupe = [] ∧
    countBusName (onMessage initialState (Decoded.ok freshInbound)).2
      (some "MessageReceived") = 1 := by
  refine ⟨rfl, rfl, by decide⟩

/-- C1 (amended): For every inbound message that decodes successfully: if
its `MessageID` is already in the dedupe set, exactly one
`DuplicateMessageReceived` event fires and the message is dropped (no
room listener is invoked, no `MessageReceived` fires, nothing is sent);
otherwise exactly one `MessageReceived` event fires and the message is
dispatched by its `MessageType`.  In both cases the handler leaves the
state — including the dedupe set — unchanged: inbound handling never
marks a `MessageID` as seen. -/
theorem inbound_dedupe_and_dispatch (st : ProviderState) (msg : Message) :
    ((msg.MessageID ∈ st.msgDedupe →
      (onMessage st (Decoded.ok msg)).1 = st ∧
      (onMessage st (Decoded.ok msg)).2.bus =
        [{ name := some "DuplicateMessageReceived"
           payload := Payload.ofMsg msg }] ∧
      (onMessage st (Decoded.ok msg)).2.internal = [] ∧
      countBusName (onMessage st (Decoded.ok msg)).2
        (some "MessageReceived") = 0 ∧
      (onMessage st (Decoded.ok msg)).2.sends = [])) ∧
    ((msg.MessageID ∉ st.msgDedupe →
      (onMessage st (Decoded.ok msg)).1 = st ∧
      (onMessage st (Decoded.ok msg)).2.bus =
        { name := some "MessageReceived", payload := Payload.ofMsg msg } ::
          dispatchBus msg ∧
      (onMessage st (Decoded.ok msg)).2.internal = dispatchInternal msg ∧
      countBusName (onMessage st (Decoded.ok msg)).2
        (some "MessageReceived") = 1 ∧
      countBusName (onMessage st (Decoded.ok msg)).2
        (some "DuplicateMessageReceived") = 0)) := by
  constructor
  · intro hmem
    refine ⟨?_, ?_, ?_, ?_, ?_⟩ <;>
      simp [onMessage, hmem, countBusName, eventRef_DuplicateMessageReceived]
  · intro hmem
    refine ⟨?_, ?_, ?_, ?_, ?_⟩ <;>
      simp [onMessage, hmem, countBusName, eventRef_MessageReceived,
        (dispatchBus_no_MessageReceived msg).1,
        (dispatchBus_no_MessageReceived msg).2]

theorem inbound_dedupe_and_dispatch_witness :
    (freshInbound.MessageID ∈
        (⟨[], [some "m1"]⟩ : ProviderState).msgDedupe ∧
      (onMessage (⟨[], [some "m1"]⟩ : ProviderState)
        (Decoded.ok freshInbound)).2.internal = []) ∧
    (freshInbound.MessageID ∉ initialState.msgDedupe ∧
      countBusName (onMessage initialState (Decoded.ok freshInbound)).2
        (some "MessageReceived") = 1) :=
  ⟨⟨by decide,
    ((inbound_dedupe_and_dispatch (⟨[], [some "m1"]⟩ : ProviderState)
      freshInbound).1 (by decide)).2.2.1⟩,
   ⟨by decide,
    ((inbound_dedupe_and_dispatch initialState freshInbound).2
      (by decide)).2.2.2.1⟩⟩

theorem hasRoom_eq_true_iff (rooms : List (String × RoomKind)) (r : String) :
    hasRoom rooms r = true ↔ r ∈ rooms.map Prod.fst := by
  simp [hasRoom, List.any_eq_true, List.mem_map]

theorem subscribeToRoom_rooms (ready : ConnState) (st : ProviderState)
    (roomID : String) (kind : RoomKind) (iv : Option String) (fresh : String)
    (h : hasRoom st.connectedRooms roomID = false) :
    (subscribeToRoom ready st roomID kind iv fresh).1.connectedRooms =
      st.connectedRooms ++ [(roomID, kind)] := by
  unfold subscribeToRoom
  simp [h]
  split
  · rw [emitMessage_rooms]
  · rfl

/-- C3: the registry holds at most one entry per room id (`nodupKeys` is
preserved by `subscribeToRoom`), and calling `subscribeToRoom` for an
already-present room leaves the state unchanged, emits no wire message,
fires exactly one `RoomCollisionPrevented` event (plus one console
error), and does not fire `RoomSubscribed`. -/
theorem room_collision_prevention (ready : ConnState) (st : ProviderState)
    (roomID : String) (kind : RoomKind) (iv : Option String)
    (fresh : String) :
    (nodupKeys st.connectedRooms →
      nodupKeys
        (subscribeToRoom ready st roomID kind iv fresh).1.connectedRooms) ∧
    (hasRoom st.connectedRooms roomID = true →
      subscribeToRoom ready st roomID kind iv fresh =
        (st, { bus := [{ name := some "RoomCollisionPrevented"
                         payload := Payload.ofRoom roomID }]
               errorLogs := 1 }) ∧
      countBusName (subscribeToRoom ready st roomID kind iv fresh).2
        (some "RoomCollisionPrevented") = 1 ∧
      countBusName (subscribeToRoom ready st roomID kind iv fresh).2
        (some "RoomSubscribed") = 0 ∧
      (subscribeToRoom ready st roomID kind iv fresh).2.sends = []) := by
  constructor
  · intro hnodup
    by_cases h : hasRoom st.connectedRooms roomID
    · simpa [subscribeToRoom, h] using hnodup
    · have h' : hasRoom st.connectedRooms roomID = false := by
        simpa using h
      have hmem : roomID ∉ st.connectedRooms.map Prod.fst := by
        rw [← hasRoom_eq_true_iff]
        simp [h']
      rw [nodupKeys, subscribeToRoom_rooms ready st roomID kind iv fresh h']
      simp [List.nodup_append]
      exact ⟨hnodup, fun x hx => hmem (List.mem_map_of_mem Prod.fst hx)⟩
  · intro h
    refine ⟨?_, ?_, ?_, ?_⟩ <;>
      simp [subscribeToRoom, h, countBusName, eventRef_RoomCollisionPrevented]

theorem room_collision_prevention_witness :
    (nodupKeys
        (⟨[("A", RoomKind.State)], []⟩ : ProviderState).connectedRooms ∧
      nodupKeys
        (subscribeToRoom ConnState.Open
          (⟨[("A", RoomKind.State)], []⟩ : ProviderState) "A"
          RoomKind.Function none "f").1.connectedRooms) ∧
    (hasRoom
        (⟨[("A", RoomKind.State)], []⟩ : ProviderState).connectedRooms "A" =
        true ∧
      subscribeToRoom ConnState.Open
          (⟨[("A", RoomKind.State)], []⟩ : ProviderState) "A"
          RoomKind.Function none "f" =
        ((⟨[("A", RoomKind.State)], []⟩ : ProviderState),
          { bus := [{ name := some "RoomCollisionPrevented"
                      payload := Payload.ofRoom "A" }]
            errorLogs := 1 })) :=
  ⟨⟨by unfold nodupKeys; decide,
    (room_collision_prevention ConnState.Open
      (⟨[("A", RoomKind.State)], []⟩ : ProviderState) "A"
      RoomKind.Function none "f").1 (by unfold nodupKeys; decide)⟩,
   ⟨by decide,
    ((room_collision_prevention ConnState.Open
      (⟨[("A", RoomKind.State)], []⟩ : ProviderState) "A"
      RoomKind.Function none "f").2 (by decide)).1⟩⟩

theorem onOpen_sendsForRoom (st : ProviderState) (ids : Nat → String)
    (roomID : String) :
    sendsForRoom (onOpen st ids).2 roomID =
      sendsForRoom (resubscribeAll ids 0 st st.connectedRooms).2 roomID := by
  simp [onOpen, Effects.append, sendsForRoom]

theorem resubscribeAll_not_mem (ids : Nat → String) (roomID : String) :
    ∀ (rooms : List (String × RoomKind)) (k : Nat) (st : ProviderState),
      roomID ∉ rooms.map Prod.fst →
      sendsForRoom (resubscribeAll ids k st rooms).2 roomID = [] := by
  intro rooms
  induction rooms with
  | nil => intro k st _; rfl
  | cons p rest ih =>
    intro k st h
    rw [List.map_cons, List.mem_cons] at h
    push_neg at h
    simp [resubscribeAll, Effects.append, sendsForRoom, List.filter_append,
      emitMessage_open_effects, subscribeMsgFor, Ne.symm h.1]
    have := ih (k + 1)
      (emitMessage ConnState.Open st (subscribeMsgFor p.1 p.2 none (ids k))).1
      h.2
    simpa [sendsForRoom] using this

theorem resubscribeAll_mem (ids : Nat → String) (roomID : String)
    (kind : RoomKind) :
    ∀ (rooms : List (String × RoomKind)) (k : Nat) (st : ProviderState),
      (rooms.map Prod.fst).Nodup → (roomID, kind) ∈ rooms →
      ∃ i, sendsForRoom (resubscribeAll ids k st rooms).2 roomID =
        [subscribeMsgFor roomID kind none (ids i)] := by
  intro rooms
  induction rooms with
  | nil => intro k st _ h; cases h
  | cons p rest ih =>
    intro k st hnodup hmem
    obtain ⟨r0, k0⟩ := p
    rw [List.map_cons, List.nodup_cons] at hnodup
    rcases List.mem_cons.mp hmem with heq | hmem'
    · obtain ⟨rfl, rfl⟩ := Prod.mk.injEq .. ▸ heq
      refine ⟨k, ?_⟩
      have hrest := resubscribeAll_not_mem ids roomID rest (k + 1)
        (emitMessage ConnState.Open st
          (subscribeMsgFor roomID kind none (ids k))).1 hnodup.1
      simp [resubscribeAll, Effects.append, sendsForRoom, List.filter_append,
        emitMessage_open_effects, subscribeMsgFor] at hrest ⊢
      simpa [sendsForRoom] using hrest
    · have hne : ¬(r0 = roomID) := by
        intro h
        subst h
        exact hnodup.1 (List.mem_map.mpr ⟨(r0, kind), hmem', rfl⟩)
      obtain ⟨i, hi⟩ := ih (k + 1)
        (emitMessage ConnState.Open st (subscribeMsgFor r0 k0 none (ids k))).1
        hnodup.2 hmem'
      refine ⟨i, ?_⟩
      simp [resubscribeAll, Effects.append, sendsForRoom, List.filter_append,
        emitMessage_open_effects, subscribeMsgFor, hne] at hi ⊢
      simpa [sendsForRoom, subscribeMsgFor] using hi

theorem unsubFromRoom_hasRoom (ready : ConnState) (st : ProviderState)
    (roomID : String) (kind : RoomKind) (fresh : String) :
    hasRoom (unsubFromRoom ready st roomID kind fresh).1.connectedRooms
      roomID = false := by
  by_cases h : hasRoom st.connectedRooms roomID
  · have hrooms : (unsubFromRoom ready st roomID kind fresh).1.connectedRooms
        = removeRoom st.connectedRooms roomID := by
      unfold unsubFromRoom
      simp [h]
      split
      · rw [emitMessage_rooms]
      · rfl
    rw [hrooms]
    simp [hasRoom, removeRoom, List.any_eq_true, List.mem_filter]
  · have h' : hasRoom st.connectedRooms roomID = false := by simpa using h
    unfold unsubFromRoom
    simp [h']

/-- C2: After a close followed by a successful re-open, the `onopen`
resubscribe sweep emits exactly one subscribe control message per room in
the current registry snapshot — tagged `SubscribeState` for rooms of kind
State and `SubscribeFunction` for rooms of kind Function — and emits no
subscribe message for any room absent from the registry, in particular
for a room unsubscribed before the reconnect completed. -/
theorem resubscribe_on_reconnect (st : ProviderState) (ids : Nat → String) :
    (nodupKeys st.connectedRooms →
      ∀ roomID kind, (roomID, kind) ∈ st.connectedRooms →
        ∃ i, sendsForRoom (onOpen st ids).2 roomID =
          [subscribeMsgFor roomID kind none (ids i)]) ∧
    (∀ roomID, hasRoom st.connectedRooms roomID = false →
      sendsForRoom (onOpen st ids).2 roomID = []) ∧
    (∀ ready roomID kind fresh,
      sendsForRoom
        (onOpen (unsubFromRoom ready st roomID kind fresh).1 ids).2 roomID
        = []) ∧
    (∀ roomID v fresh,
      (subscribeMsgFor roomID RoomKind.State v fresh).MessageType =
        MessageType.SubscribeState ∧
      (subscribeMsgFor roomID RoomKind.Function v fresh).MessageType =
        MessageType.SubscribeFunction) := by
  refine ⟨?_, ?_, ?_, fun _ _ _ => ⟨rfl, rfl⟩⟩
  · intro hnodup roomID kind hmem
    rw [onOpen_sendsForRoom]
    exact resubscribeAll_mem ids roomID kind st.connectedRooms 0 st hnodup
      hmem
  · intro roomID h
    rw [onOpen_sendsForRoom]
    refine resubscribeAll_not_mem ids roomID st.connectedRooms 0 st ?_
    rw [← hasRoom_eq_true_iff, h]
    simp
  · intro ready roomID kind fresh
    rw [onOpen_sendsForRoom]
    refine resubscribeAll_not_mem ids roomID _ 0 _ ?_
    rw [← hasRoom_eq_true_iff, unsubFromRoom_hasRoom]
    simp

theorem resubscribe_on_reconnect_witness :
    (nodupKeys
        (⟨[("A", RoomKind.State), ("B", RoomKind.Function)], []⟩ :
          ProviderState).connectedRooms ∧
      ("A", RoomKind.State) ∈
        (⟨[("A", RoomKind.State), ("B", RoomKind.Function)], []⟩ :
          ProviderState).connectedRooms ∧
      ∃ _i : Nat, sendsForRoom
        (onOpen
          (⟨[("A", RoomKind.State), ("B", RoomKind.Function)], []⟩ :
            ProviderState) (fun _ : Nat => "w")).2 "A" =
        [subscribeMsgFor "A" RoomKind.State none "w"]) ∧
    (hasRoom
        (⟨[("A", RoomKind.State), ("B", RoomKind.Function)], []⟩ :
          ProviderState).connectedRooms "C" = false ∧
      sendsForRoom
        (onOpen
          (⟨[("A", RoomKind.State), ("B", RoomKind.Function)], []⟩ :
            ProviderState) (fun _ : Nat => "w")).2 "C" = []) :=
  ⟨⟨by unfold nodupKeys; decide, by decide,
    (resubscribe_on_reconnect
      (⟨[("A", RoomKind.State), ("B", RoomKind.Function)], []⟩ :
        ProviderState) (fun _ : Nat => "w")).1 (by unfold nodupKeys; decide)
      "A" RoomKind.State (by decide)⟩,
   ⟨by decide,
    (resubscribe_on_reconnect
      (⟨[("A", RoomKind.State), ("B", RoomKind.Function)], []⟩ :
        ProviderState) (fun _ : Nat => "w")).2.1 "C" (by decide)⟩⟩

theorem onMessage_state_and_adds (st : ProviderState) (d : Decoded) :
    (onMessage st d).1 = st ∧ (onMessage st d).2.dedupeAdds = [] := by
  cases d with
  | fail => exact ⟨rfl, rfl⟩
  | ok msg =>
    by_cases h : msg.MessageID ∈ st.msgDedupe <;> simp [onMessage, h]

theorem resubscribeAll_dedupe_mem (ids : Nat → String) :
    ∀ (rooms : List (String × RoomKind)) (k : Nat) (st : ProviderState)
      (x : Option String),
      x ∈ (resubscribeAll ids k st rooms).1.msgDedupe ↔
        x ∈ st.msgDedupe ∨ x ∈ (resubscribeAll ids k st rooms).2.dedupeAdds := by
  intro rooms
  induction rooms with
  | nil => intro k st x; simp [resubscribeAll]
  | cons p rest ih =>
    intro k st x
    have hd := emitMessage_dedupe ConnState.Open st
      (subscribeMsgFor p.1 p.2 none (ids k))
    simp only [resubscribeAll, Effects.append]
    rw [ih (k + 1)
      (emitMessage ConnState.Open st (subscribeMsgFor p.1 p.2 none (ids k))).1
      x]
    rw [hd.1, hd.2, mem_insertDedupe]
    simp [or_assoc]

theorem subscribeToRoom_dedupe_mem (ready : ConnState) (st : ProviderState)
    (roomID : String) (kind : RoomKind) (iv : Option String) (fresh : String)
    (x : Option String) :
    x ∈ (subscribeToRoom ready st roomID kind iv fresh).1.msgDedupe ↔
      x ∈ st.msgDedupe ∨
        x ∈ (subscribeToRoom ready st roomID kind iv fresh).2.dedupeAdds := by
  unfold subscribeToRoom
  by_cases h : hasRoom st.connectedRooms roomID
  · simp [h]
  · simp only [h, Bool.false_eq_true, if_false, Effects.append]
    split
    · rw [(emitMessage_dedupe ..).1, (emitMessage_dedupe ..).2,
        mem_insertDedupe]
      simp
    · simp

theorem unsubFromRoom_dedupe_mem (ready : ConnState) (st : ProviderState)
    (roomID : String) (kind : RoomKind) (fresh : String) (x : Option String) :
    x ∈ (unsubFromRoom ready st roomID kind fresh).1.msgDedupe ↔
      x ∈ st.msgDedupe ∨
        x ∈ (unsubFromRoom ready st roomID kind fresh).2.dedupeAdds := by
  unfold unsubFromRoom
  by_cases h : hasRoom st.connectedRooms roomID
  · simp only [h, if_true, Effects.append]
    split
    · rw [(emitMessage_dedupe ..).1, (emitMessage_dedupe ..).2,
        mem_insertDedupe]
      simp
    · simp
  · simp [h]

theorem onOpen_dedupe_mem (st : ProviderState) (ids : Nat → String)
    (x : Option String) :
    x ∈ (onOpen st ids).1.msgDedupe ↔
      x ∈ st.msgDedupe ∨ x ∈ (onOpen st ids).2.dedupeAdds := by
  simp only [onOpen, Effects.append]
  rw [resubscribeAll_dedupe_mem]
  simp

theorem runOps_dedupe_invariant :
    ∀ (ops : List Op) (st : ProviderState) (acc : List (Option String)),
      (∀ x, x ∈ st.msgDedupe ↔ x ∈ acc) →
      ∀ x, x ∈ (runOps st ops).msgDedupe ↔ x ∈ emittedTrace st acc ops := by
  intro ops
  induction ops with
  | nil => intro st acc h x; simpa [runOps, emittedTrace] using h x
  | cons op ops ih =>
    intro st acc h x
    simp only [runOps, emittedTrace]
    cases op with
    | truncateOp =>
      apply ih
      intro y
      simp [applyOp, truncateDedupe]
    | emitOp ready msg =>
      apply ih
      intro y
      have hd := emitMessage_dedupe ready st msg
      simp only [applyOp]
      rw [hd.1, hd.2, mem_insertDedupe, h y]
      simp
    | inboundOp d =>
      apply ih
      intro y
      have hm := onMessage_state_and_adds st d
      simp only [applyOp]
      rw [hm.1, hm.2, h y]
      simp
    | subscribeOp ready roomID kind iv fresh =>
      apply ih
      intro y
      simp only [applyOp]
      rw [subscribeToRoom_dedupe_mem, h y, List.mem_append]
    | unsubOp ready roomID kind fresh =>
      apply ih
      intro y
      simp only [applyOp]
      rw [unsubFromRoom_dedupe_mem, h y, List.mem_append]
    | reopenOp ids =>
      apply ih
      intro y
      simp only [applyOp]
      rw [onOpen_dedupe_mem, h y, List.mem_append]

/-- C10: along any sequence of operations from the freshly mounted
provider, the dedupe set contains exactly the `MessageID`s that this
client's own `emitMessage` invocations inserted since the last
truncation (the `dedupeAdds` trace), and inbound message handling never
touches the state — in particular it never inserts into the dedupe set,
so duplicate suppression applies only to self-emitted ids echoed back. -/
theorem dedupe_tracks_only_self_emits :
    (∀ (st : ProviderState) (d : Decoded),
      (onMessage st d).1 = st ∧ (onMessage st d).2.dedupeAdds = []) ∧
    (∀ (ops : List Op) (x : Option String),
      x ∈ (runOps initialState ops).msgDedupe ↔
        x ∈ emittedTrace initialState [] ops) := by
  refine ⟨onMessage_state_and_adds, ?_⟩
  intro ops x
  exact runOps_dedupe_invariant ops initialState [] (by simp [initialState]) x

end Frontlink
